import Mathlib

/-!
Verification of the session-resilience core of a browser-automation research
server.  The definitions below are shallow embeddings of the TypeScript
sources (`src/utils/request-timing.ts`, `src/server/modules/BrowserManager.ts`,
`src/utils/session-manager.ts`, `src/tools/chatPerplexity.ts`).  JavaScript
numbers are modelled as rationals, every `Math.random()` draw is an explicit
parameter `r` with `0 ≤ r < 1`, and fallible operations return `Except`.
-/

/-- Request timing statistics (`RequestStats`, request-timing.ts). -/
structure RequestStats where
  totalRequests : ℕ
  averageResponseTime : ℚ
  lastRequestTime : ℚ
  minDelay : ℚ
  maxDelay : ℚ
deriving DecidableEq

/-- `initializeRequestStats` (request-timing.ts): zero state with
`minDelay = 100`, `maxDelay = 2500`; `now` stands for `Date.now()`. -/
def initializeRequestStats (now : ℚ) : RequestStats :=
  { totalRequests := 0, averageResponseTime := 0, lastRequestTime := now,
    minDelay := 100, maxDelay := 2500 }

/-- `calculateAdaptiveDelay` (request-timing.ts); `r` is the single
`Math.random()` draw made by whichever branch executes. -/
def calculateAdaptiveDelay (stats : RequestStats) (r : ℚ) : ℚ :=
  if stats.totalRequests = 0 then
    100 + r * 200
  else
    let requestFatigueFactor : ℚ := min ((stats.totalRequests : ℚ) * 50) 500
    let baseDelay : ℚ :=
      if stats.averageResponseTime < 500 then 200
      else if stats.averageResponseTime < 2000 then 500
      else 1000
    let randomFactor : ℚ := 1 / 2 + r
    let delay := (baseDelay + requestFatigueFactor) * randomFactor
    max stats.minDelay (min stats.maxDelay delay)

/-- `updateRequestStats` (request-timing.ts); the in-place mutation is
rendered as returning the updated record.  The source increments
`totalRequests` and then recomputes
`(avg * (totalRequests - 1) + duration) / totalRequests`. -/
def updateRequestStats (stats : RequestStats) (responseDuration : ℚ) (now : ℚ) : RequestStats :=
  let total := stats.totalRequests + 1
  { stats with
    totalRequests := total
    lastRequestTime := now
    averageResponseTime :=
      (stats.averageResponseTime * ((total : ℚ) - 1) + responseDuration) / (total : ℚ) }

/-- Feeding a whole list of observed durations through `updateRequestStats`,
starting from a fresh `initializeRequestStats` state. -/
def runUpdates (t0 now : ℚ) (durations : List ℚ) : RequestStats :=
  durations.foldl (fun s d => updateRequestStats s d now) (initializeRequestStats t0)

/-- `NetworkBehaviorProfile` (request-timing.ts).  The source annotates
`responseTimeMultiplier` and `readingPaceMultiplier` with `// 0.8-1.2`. -/
structure NetworkBehaviorProfile where
  minRequestDelay : ℚ
  maxRequestDelay : ℚ
  requestVariability : ℚ
  responseTimeMultiplier : ℚ
  readingPaceMultiplier : ℚ
deriving DecidableEq

/-- `generateNetworkProfile` (request-timing.ts); `r1`‥`r5` are the five
`Math.random()` draws in source order. -/
def generateNetworkProfile (r1 r2 r3 r4 r5 : ℚ) : NetworkBehaviorProfile :=
  { minRequestDelay := 100 + r1 * 300
    maxRequestDelay := 1500 + r2 * 1500
    requestVariability := 3 / 10 + r3 * (4 / 10)
    responseTimeMultiplier := 8 / 10 + r4 * (4 / 10)
    readingPaceMultiplier := 7 / 10 + r5 * (6 / 10) }

/-- `calculateExponentialBackoff` (request-timing.ts); `r` is the jitter
draw (`Math.random()`).  `Math.pow(2, attemptNumber - 1)` is a real power,
so the exponent is an integer `zpow`. -/
def calculateExponentialBackoff (attemptNumber : ℤ) (r : ℚ) : ℚ :=
  min (1000 * (2 : ℚ) ^ (attemptNumber - 1) + r * 1000) 30000

/-- Folding `updateRequestStats` preserves the running count and the running
sum `average * count`. -/
theorem runUpdates_invariant (now : ℚ) (durations : List ℚ) :
    ∀ s : RequestStats,
      ((durations.foldl (fun s d => updateRequestStats s d now) s).totalRequests
          = s.totalRequests + durations.length) ∧
      ((durations.foldl (fun s d => updateRequestStats s d now) s).averageResponseTime
            * ((s.totalRequests : ℚ) + durations.length)
          = s.averageResponseTime * s.totalRequests + durations.sum) := by
  induction durations with
  | nil => intro s; simp
  | cons d ds ih =>
    intro s
    have h := ih (updateRequestStats s d now)
    have htot : (updateRequestStats s d now).totalRequests = s.totalRequests + 1 := rfl
    have hne : ((s.totalRequests : ℚ) + 1) ≠ 0 := by positivity
    have havg : (updateRequestStats s d now).averageResponseTime
        * ((s.totalRequests : ℚ) + 1)
        = s.averageResponseTime * s.totalRequests + d := by
      show (s.averageResponseTime * (((s.totalRequests + 1 : ℕ) : ℚ) - 1) + d)
          / ((s.totalRequests + 1 : ℕ) : ℚ) * ((s.totalRequests : ℚ) + 1)
          = s.averageResponseTime * s.totalRequests + d
      push_cast
      field_simp
    refine ⟨?_, ?_⟩
    · rw [List.foldl_cons, (h).1, htot]
      simp [Nat.add_assoc, Nat.add_comm 1]
    · rw [List.foldl_cons]
      have h2 := (h).2
      rw [htot] at h2
      simp only [List.length_cons, List.sum_cons]
      push_cast at h2 ⊢
      have hlen : ((s.totalRequests : ℚ) + ((ds.length : ℚ) + 1))
          = (s.totalRequests : ℚ) + 1 + (ds.length : ℚ) := by ring
      rw [hlen, h2, havg]
      ring

/-- C6: `updateRequestStats` increments `totalRequests` by exactly one per
call, and after feeding any nonempty sequence of durations into a fresh
stats object, `averageResponseTime` is the exact arithmetic mean of the
durations; in particular durations `[500, 700]` yield `totalRequests = 2`
and `averageResponseTime = 600` exactly. -/
theorem updateRequestStats_exact_mean :
    (∀ (stats : RequestStats) (d now : ℚ),
        (updateRequestStats stats d now).totalRequests = stats.totalRequests + 1) ∧
    (∀ (t0 now : ℚ) (durations : List ℚ), durations ≠ [] →
        (runUpdates t0 now durations).averageResponseTime
          = durations.sum / durations.length) ∧
    ((runUpdates 0 0 [500, 700]).totalRequests = 2 ∧
      (runUpdates 0 0 [500, 700]).averageResponseTime = 600) := by
  refine ⟨fun stats d now => rfl, ?_,
    by norm_num [runUpdates, updateRequestStats, initializeRequestStats],
    by norm_num [runUpdates, updateRequestStats, initializeRequestStats]⟩
  intro t0 now durations hne
  have h := (runUpdates_invariant now durations (initializeRequestStats t0)).2
  simp only [initializeRequestStats] at h
  have hlen : (0 : ℚ) < durations.length := by
    have : durations.length ≠ 0 := fun hc => hne (List.eq_nil_of_length_eq_zero hc)
    positivity
  have h' : (runUpdates t0 now durations).averageResponseTime * durations.length
      = durations.sum := by
    simpa [runUpdates, initializeRequestStats] using h
  field_simp
  linarith [h']

/-- Closed witness for `updateRequestStats_exact_mean`. -/
theorem updateRequestStats_exact_mean_witness :
    (runUpdates 0 0 [500, 700]).averageResponseTime
      = ([500, 700] : List ℚ).sum / (([500, 700] : List ℚ).length : ℚ) :=
  updateRequestStats_exact_mean.2.1 0 0 [500, 700] (List.cons_ne_nil _ _)

/-- C9: `calculateAdaptiveDelay` clamps into `[minDelay, maxDelay]` only when
`totalRequests > 0`; with `totalRequests = 0` it returns `100 + r * 200`
without clamping, so for stats with `minDelay > 300` the result can fall
outside `[minDelay, maxDelay]`. -/
theorem calculateAdaptiveDelay_clamp_only_when_nonzero :
    (∀ (stats : RequestStats) (r : ℚ), stats.totalRequests = 0 →
        calculateAdaptiveDelay stats r = 100 + r * 200) ∧
    (∀ (stats : RequestStats) (r : ℚ), stats.totalRequests ≠ 0 →
        stats.minDelay ≤ calculateAdaptiveDelay stats r ∧
        (stats.minDelay ≤ stats.maxDelay → calculateAdaptiveDelay stats r ≤ stats.maxDelay)) ∧
    (∃ (stats : RequestStats) (r : ℚ), 0 ≤ r ∧ r < 1 ∧ 300 < stats.minDelay ∧
        stats.minDelay ≤ stats.maxDelay ∧
        calculateAdaptiveDelay stats r < stats.minDelay) := by
  refine ⟨?_, ?_, ?_⟩
  · intro stats r h
    simp [calculateAdaptiveDelay, h]
  · intro stats r h
    constructor
    · simp only [calculateAdaptiveDelay, if_neg h]
      exact le_max_left _ _
    · intro hmm
      simp only [calculateAdaptiveDelay, if_neg h]
      exact max_le hmm (min_le_left _ _)
  · exact ⟨⟨0, 0, 0, 400, 2500⟩, 0, by norm_num, by norm_num, by norm_num, by norm_num,
      by norm_num [calculateAdaptiveDelay]⟩

/-- Closed witness for `calculateAdaptiveDelay_clamp_only_when_nonzero`. -/
theorem calculateAdaptiveDelay_clamp_witness :
    calculateAdaptiveDelay
      { totalRequests := 0, averageResponseTime := 0, lastRequestTime := 0,
        minDelay := 400, maxDelay := 2500 } 0 = 100 + 0 * 200 :=
  calculateAdaptiveDelay_clamp_only_when_nonzero.1
    { totalRequests := 0, averageResponseTime := 0, lastRequestTime := 0,
      minDelay := 400, maxDelay := 2500 } 0 rfl

/-- C7: at the valid random draw `0`, `generateNetworkProfile` produces
`readingPaceMultiplier = 0.7`, which lies outside the documented interval
`[0.8, 1.2]` (the source computes `0.7 + Math.random() * 0.6` although its
own interface comment and the repository test require `0.8`‥`1.2`); the
other two bounded fields do satisfy their documented intervals. -/
theorem generateNetworkProfile_readingPace_bug :
    (generateNetworkProfile 0 0 0 0 0).readingPaceMultiplier = 7 / 10 ∧
    ¬((8 : ℚ) / 10 ≤ (generateNetworkProfile 0 0 0 0 0).readingPaceMultiplier) ∧
    (3 : ℚ) / 10 ≤ (generateNetworkProfile 0 0 0 0 0).requestVariability ∧
    (generateNetworkProfile 0 0 0 0 0).requestVariability ≤ 7 / 10 ∧
    (8 : ℚ) / 10 ≤ (generateNetworkProfile 0 0 0 0 0).responseTimeMultiplier ∧
    (generateNetworkProfile 0 0 0 0 0).responseTimeMultiplier ≤ 12 / 10 := by
  refine ⟨by norm_num [generateNetworkProfile], by norm_num [generateNetworkProfile],
    by norm_num [generateNetworkProfile], by norm_num [generateNetworkProfile],
    by norm_num [generateNetworkProfile], by norm_num [generateNetworkProfile]⟩

/-- Lower-casing a JavaScript string (`message.toLowerCase()` on the ASCII
vocabulary the classifiers match against). -/
def toLowerCase (s : String) : String := ⟨s.data.map Char.toLower⟩

/-- Substring search on character lists (JavaScript `String.includes`). -/
def containsSub (needle : List Char) : List Char → Bool
  | [] => needle.isEmpty
  | c :: t => needle.isPrefixOf (c :: t) || containsSub needle t

/-- `hay.includes(needle)` for strings. -/
def strIncludes (hay needle : String) : Bool := containsSub needle.data hay.data

/-- `BrowserManager.determineRecoveryLevel` (BrowserManager.ts): the
message-only classifier owned by the supervisor module. -/
def bmDetermineRecoveryLevel (error : Option String) : ℕ :=
  match error with
  | none => 1
  | some msg =>
    let errorMessage := toLowerCase msg
    if strIncludes errorMessage "detached" || strIncludes errorMessage "crashed" ||
        strIncludes errorMessage "disconnected" || strIncludes errorMessage "protocol error" then
      3
    else if strIncludes errorMessage "navigation" || strIncludes errorMessage "timeout" ||
        strIncludes errorMessage "net::err" then
      2
    else 1

/-- Read-only view of supervisor state at recovery-decision time
(`EnvironmentSnapshot`, spec §3; the literal shape used by the unit tests). -/
structure EnvironmentSnapshot where
  hasBrowser : Bool
  isBrowserConnected : Bool
  hasValidPage : Bool
  operationCount : ℕ
deriving DecidableEq

/-- The raw-message phrases that force a full browser restart: the three
phrases of spec §4.2 joined with the three words of spec §8. -/
def criticalErrorPhrases : List String :=
  ["frame detached", "session closed", "target closed", "detached", "crashed", "disconnected"]

/-- Modelled from the spec: the environment-aware `determineRecoveryLevel` of
`src/utils/puppeteer-logic.ts` is not among the repository's source files
(only its unit tests are).  Spec §4.2 gives the decision order, first match
wins: no error → 1; raw message containing a critical phrase → 3, checked
independent of the environment; `hasBrowser == false` or
`isBrowserConnected == false` → 3; `hasValidPage == false` → 2; otherwise 1.
§8 additionally requires any message containing "detached"/"crashed"/
"disconnected" in any letter case to force level 3, so the critical-phrase
list joins both sections and the message is lower-cased first. -/
def determineRecoveryLevel (error : Option String)
    (environment : Option EnvironmentSnapshot) : ℕ :=
  match error with
  | none => 1
  | some msg =>
    let m := toLowerCase msg
    if criticalErrorPhrases.any (fun p => strIncludes m p) then 3
    else
      match environment with
      | none => 1
      | some env =>
        if env.hasBrowser = false ∨ env.isBrowserConnected = false then 3
        else if env.hasValidPage = false then 2
        else 1

/-- C1: for a non-critical error message the recovery level is decided by the
environment snapshot alone — 3 when the browser is missing or disconnected,
2 when only the page is invalid, 1 otherwise — and with no error the level
is 1 for every environment. -/
theorem determineRecoveryLevel_environment_cases :
    (∀ (msg : String) (env : EnvironmentSnapshot),
        criticalErrorPhrases.any (fun p => strIncludes (toLowerCase msg) p) = false →
        determineRecoveryLevel (some msg) (some env)
          = if env.hasBrowser = false ∨ env.isBrowserConnected = false then 3
            else if env.hasValidPage = false then 2
            else 1) ∧
    (∀ environment : Option EnvironmentSnapshot, determineRecoveryLevel none environment = 1) := by
  constructor
  · intro msg env h
    obtain ⟨hb, bc, vp, oc⟩ := env
    cases hb <;> cases bc <;> cases vp <;> simp [determineRecoveryLevel, h]
  · intro environment
    rfl

/-- Closed witness for `determineRecoveryLevel_environment_cases`: the benign
message "any" with a browserless environment yields level 3. -/
theorem determineRecoveryLevel_environment_cases_witness :
    determineRecoveryLevel (some "any") (some ⟨false, false, false, 0⟩)
      = if (false = false ∨ false = false : Prop) then 3 else
          if (false = false : Prop) then 2 else 1 :=
  determineRecoveryLevel_environment_cases.1 "any" ⟨false, false, false, 0⟩ (by decide)

/-- C2: a raw message containing any critical phrase — "frame detached",
"session closed", "target closed" (spec §4.2) or "detached", "crashed",
"disconnected" (spec §8), matched on the lower-cased message — forces
recovery level 3 for every environment snapshot, present or absent. -/
theorem determineRecoveryLevel_critical_forces_restart :
    ∀ (msg : String) (environment : Option EnvironmentSnapshot),
      (strIncludes (toLowerCase msg) "frame detached" = true ∨
        strIncludes (toLowerCase msg) "session closed" = true ∨
        strIncludes (toLowerCase msg) "target closed" = true ∨
        strIncludes (toLowerCase msg) "detached" = true ∨
        strIncludes (toLowerCase msg) "crashed" = true ∨
        strIncludes (toLowerCase msg) "disconnected" = true) →
      determineRecoveryLevel (some msg) environment = 3 := by
  intro msg environment h
  have hany : criticalErrorPhrases.any (fun p => strIncludes (toLowerCase msg) p) = true := by
    simp only [criticalErrorPhrases, List.any_cons, List.any_nil, Bool.or_eq_true]
    rcases h with h | h | h | h | h | h <;> simp [h]
  simp [determineRecoveryLevel, hany]

/-- Closed witness for `determineRecoveryLevel_critical_forces_restart`: the
message "Target closed." forces level 3 even in a fully healthy environment. -/
theorem determineRecoveryLevel_critical_witness :
    determineRecoveryLevel (some "Target closed.") (some ⟨true, true, true, 5⟩) = 3 :=
  determineRecoveryLevel_critical_forces_restart "Target closed." (some ⟨true, true, true, 5⟩)
    (Or.inr (Or.inr (Or.inl (by decide))))

/-- Structured failure analysis (`ErrorAnalysis`, spec §3; the literal shape
used by the unit tests). -/
structure ErrorAnalysis where
  isTimeout : Bool
  isNavigation : Bool
  isConnection : Bool
  isDetachedFrame : Bool
  isCaptcha : Bool
  consecutiveTimeouts : ℕ
  consecutiveNavigationErrors : ℕ
deriving DecidableEq

/-- Modelled from the spec: `calculateRetryDelay` of
`src/utils/puppeteer-logic.ts` is not among the repository's source files
(only its unit tests are).  Spec §4.3: exponential base `1000 · 2^attempt`
plus jitter drawn uniformly from `[0, 1000)`; category overrides raise the
pre-cap floor (`isTimeout` → 5000, `isNavigation` → 8000), multiple floors
combining by maximum; the fatigue counters add a bounded,
diminishing-returns increment; the result is capped at 30000. -/
def calculateRetryDelay (attemptNumber : ℕ) (analysis : ErrorAnalysis) (jitter : ℚ) : ℚ :=
  let base : ℚ := 1000 * 2 ^ attemptNumber + jitter
  let floorDelay : ℚ :=
    max (if analysis.isTimeout then 5000 else 0) (if analysis.isNavigation then 8000 else 0)
  let fatigue : ℚ :=
    min (500 * (analysis.consecutiveTimeouts : ℚ)) 2000
      + min (500 * (analysis.consecutiveNavigationErrors : ℚ)) 2000
  min (max base floorDelay + fatigue) 30000

/-- C4: for every jitter draw in `[0, 1000)`, `calculateRetryDelay 2` with no
category flags and zero fatigue counters is at least 4000;
`calculateRetryDelay 0` is at least 5000 under `isTimeout` and at least 8000
under `isNavigation`; and every computed delay is at most the 30000 cap. -/
theorem calculateRetryDelay_bounds :
    ∀ jitter : ℚ, 0 ≤ jitter → jitter < 1000 →
      (∀ a : ErrorAnalysis, a.isTimeout = false → a.isNavigation = false →
          a.isConnection = false → a.isDetachedFrame = false → a.isCaptcha = false →
          a.consecutiveTimeouts = 0 → a.consecutiveNavigationErrors = 0 →
          4000 ≤ calculateRetryDelay 2 a jitter) ∧
      (∀ a : ErrorAnalysis, a.isTimeout = true → 5000 ≤ calculateRetryDelay 0 a jitter) ∧
      (∀ a : ErrorAnalysis, a.isNavigation = true → 8000 ≤ calculateRetryDelay 0 a jitter) ∧
      (∀ (n : ℕ) (a : ErrorAnalysis), calculateRetryDelay n a jitter ≤ 30000) := by
  intro jitter hj0 hj1
  have hfat : ∀ a : ErrorAnalysis, (0 : ℚ) ≤
      min (500 * (a.consecutiveTimeouts : ℚ)) 2000
        + min (500 * (a.consecutiveNavigationErrors : ℚ)) 2000 := by
    intro a
    have h1 : (0 : ℚ) ≤ min (500 * (a.consecutiveTimeouts : ℚ)) 2000 :=
      le_min (by positivity) (by norm_num)
    have h2 : (0 : ℚ) ≤ min (500 * (a.consecutiveNavigationErrors : ℚ)) 2000 :=
      le_min (by positivity) (by norm_num)
    linarith
  refine ⟨?_, ?_, ?_, ?_⟩
  · intro a ht hn _ _ _ hct hcn
    simp only [calculateRetryDelay, ht, hn, hct, hcn, if_false, Bool.false_eq_true,
      Nat.cast_zero, mul_zero]
    refine le_min ?_ (by norm_num)
    have hb : (4000 : ℚ) ≤ 1000 * 2 ^ 2 + jitter := by norm_num [hj0]
    have := le_max_left (1000 * (2 : ℚ) ^ 2 + jitter) (max 0 0)
    norm_num
    linarith
  · intro a ht
    simp only [calculateRetryDelay, ht, if_true]
    refine le_min ?_ (by norm_num)
    have h5 : (5000 : ℚ) ≤ max (1000 * 2 ^ 0 + jitter)
        (max 5000 (if a.isNavigation then 8000 else 0)) := by
      refine le_trans ?_ (le_max_right _ _)
      exact le_max_left _ _
    have := hfat a
    linarith
  · intro a hn
    simp only [calculateRetryDelay, hn, if_true]
    refine le_min ?_ (by norm_num)
    have h8 : (8000 : ℚ) ≤ max (1000 * 2 ^ 0 + jitter)
        (max (if a.isTimeout then 5000 else 0) 8000) := by
      refine le_trans ?_ (le_max_right _ _)
      exact le_max_right _ _
    have := hfat a
    linarith
  · intro n a
    exact min_le_right _ _

/-- Closed witness for `calculateRetryDelay_bounds`: jitter 0, a blank
analysis, attempt 2. -/
theorem calculateRetryDelay_bounds_witness :
    4000 ≤ calculateRetryDelay 2 ⟨false, false, false, false, false, 0, 0⟩ 0 :=
  (calculateRetryDelay_bounds 0 le_rfl (by norm_num)).1
    ⟨false, false, false, false, false, 0, 0⟩ rfl rfl rfl rfl rfl rfl rfl

/-- The fixed dangerous launch-flag set (`DANGEROUS_ARGS`, BrowserManager.ts). -/
def DANGEROUS_ARGS : List String :=
  ["--no-sandbox", "--disable-setuid-sandbox", "--single-process", "--disable-web-security",
   "--ignore-certificate-errors", "--disable-features=IsolateOrigins",
   "--disable-site-isolation-trials", "--allow-running-insecure-content"]

/-- `p.isPrefixOf s` on the underlying character lists (JavaScript
`String.startsWith`). -/
def strIsPrefixOf (p s : String) : Bool := p.data.isPrefixOf s.data

/-- The dangerous entries of an argument list: those starting with a flag of
`DANGEROUS_ARGS` (the `filter` inside `ensureBrowser`). -/
def dangerousArgsOf (args : List String) : List String :=
  args.filter (fun arg => DANGEROUS_ARGS.any (fun d => strIsPrefixOf d arg))

/-- The root-user adjustment of `ensureBrowser`: when running as uid 0 the
merged config gains `--no-sandbox` (creating the `args` array if absent)
before the security validation runs. -/
def addRootSandboxArg (args : Option (List String)) (isRoot : Bool) : Option (List String) :=
  if isRoot then
    let a := args.getD []
    some (if a.contains "--no-sandbox" then a else a ++ ["--no-sandbox"])
  else args

/-- The security-validation phase of `ensureBrowser` (BrowserManager.ts):
`mergedArgs` is the `args` array of the deep-merged launch configuration,
`envAllowDangerous` is `process.env.ALLOW_DANGEROUS === "true"`.  An
`Except.error` is the thrown rejection, raised before any launch happens;
`Except.ok` means control reaches the launch/reuse phase. -/
def ensureBrowser (mergedArgs : Option (List String))
    (isRoot allowDangerous envAllowDangerous : Bool) : Except String Unit :=
  match addRootSandboxArg mergedArgs isRoot with
  | some args =>
    let dangerous := dangerousArgsOf args
    if 0 < dangerous.length ∧ ¬(allowDangerous = true ∨ envAllowDangerous = true) then
      Except.error ("Dangerous browser arguments detected: "
        ++ String.intercalate ", " dangerous ++ ". Set allowDangerous: true to override.")
    else Except.ok ()
  | none => Except.ok ()

/-- `initialize` (BrowserManager.ts): a no-op while `isInitializing` is set,
otherwise it runs `ensureBrowser` and rethrows its error to the caller.  The
`Bool` result records whether the browser-ensuring phase ran. -/
def initializeBrowser (isInitializing : Bool) (mergedArgs : Option (List String))
    (isRoot allowDangerous envAllowDangerous : Bool) : Except String Bool :=
  if isInitializing then Except.ok false
  else (ensureBrowser mergedArgs isRoot allowDangerous envAllowDangerous).map fun _ => true

/-- Membership survives the root `--no-sandbox` adjustment. -/
theorem mem_addRootSandboxArg {arg : String} {args : List String} (isRoot : Bool)
    (h : arg ∈ args) : ∀ l, addRootSandboxArg (some args) isRoot = some l → arg ∈ l := by
  intro l hl
  by_cases hr : isRoot = true
  · simp only [addRootSandboxArg, hr, if_true, Option.getD_some, Option.some.injEq] at hl
    by_cases hc : args.contains "--no-sandbox" = true
    · rw [if_pos hc] at hl; exact hl ▸ h
    · rw [if_neg hc] at hl; exact hl ▸ List.mem_append_left _ h
  · simp only [Bool.not_eq_true] at hr
    simp only [addRootSandboxArg, hr, Bool.false_eq_true, if_false,
      Option.some.injEq] at hl
    exact hl ▸ h

/-- C3: whenever the merged launch arguments contain an entry starting with a
flag of the fixed dangerous set, while `allowDangerous` is false and the
`ALLOW_DANGEROUS` environment override is unset, `ensureBrowser` throws a
"Dangerous browser arguments detected" error before launching, and
`initialize` surfaces that same rejection to its caller. -/
theorem ensureBrowser_rejects_dangerous_args :
    ∀ (args : List String) (isRoot : Bool) (arg : String), arg ∈ args →
      (∃ d ∈ DANGEROUS_ARGS, strIsPrefixOf d arg = true) →
      (∃ e, ensureBrowser (some args) isRoot false false = Except.error e ∧
        strIncludes e "Dangerous browser arguments detected" = true) ∧
      (∃ e, initializeBrowser false (some args) isRoot false false = Except.error e) := by
  intro args isRoot arg hmem hdang
  obtain ⟨adjusted, hadj⟩ : ∃ l, addRootSandboxArg (some args) isRoot = some l := by
    by_cases hr : isRoot = true <;> simp [addRootSandboxArg, hr]
  have hmem' : arg ∈ adjusted := mem_addRootSandboxArg isRoot hmem adjusted hadj
  have hpred : DANGEROUS_ARGS.any (fun d => strIsPrefixOf d arg) = true := by
    obtain ⟨d, hd, hp⟩ := hdang
    exact List.any_eq_true.mpr ⟨d, hd, hp⟩
  have hfilter : arg ∈ dangerousArgsOf adjusted :=
    List.mem_filter.mpr ⟨hmem', hpred⟩
  have hlen : 0 < (dangerousArgsOf adjusted).length :=
    List.length_pos.mpr (List.ne_nil_of_mem hfilter)
  have herr : ensureBrowser (some args) isRoot false false
      = Except.error ("Dangerous browser arguments detected: "
        ++ String.intercalate ", " (dangerousArgsOf adjusted)
        ++ ". Set allowDangerous: true to override.") := by
    simp only [ensureBrowser, hadj]
    rw [if_pos]
    exact ⟨hlen, by simp⟩
  have hp : ∀ (n rest : List Char), containsSub n (n ++ rest) = true := by
    intro n rest
    cases n with
    | nil => cases rest <;> simp [containsSub, List.isEmpty]
    | cons c t =>
      simp only [List.cons_append, containsSub]
      have hpre : (c :: t).isPrefixOf (c :: t.append rest) = true :=
        List.isPrefixOf_iff_prefix.mpr ⟨rest, rfl⟩
      rw [hpre]
      rfl
  have hdata : ("Dangerous browser arguments detected: "
      ++ String.intercalate ", " (dangerousArgsOf adjusted)
      ++ ". Set allowDangerous: true to override.").data
      = "Dangerous browser arguments detected".data
        ++ (": ".data ++ (String.intercalate ", " (dangerousArgsOf adjusted)).data
            ++ ". Set allowDangerous: true to override.".data) := by
    simp [String.data_append]
  have hinc : strIncludes ("Dangerous browser arguments detected: "
      ++ String.intercalate ", " (dangerousArgsOf adjusted)
      ++ ". Set allowDangerous: true to override.")
      "Dangerous browser arguments detected" = true := by
    show containsSub _ _ = true
    rw [hdata]
    exact hp _ _
  have herr2 : initializeBrowser false (some args) isRoot false false
      = Except.error ("Dangerous browser arguments detected: "
        ++ String.intercalate ", " (dangerousArgsOf adjusted)
        ++ ". Set allowDangerous: true to override.") := by
    simp [initializeBrowser, herr, Except.map]
  exact ⟨⟨_, herr, hinc⟩, ⟨_, herr2⟩⟩

/-- Closed witness for `ensureBrowser_rejects_dangerous_args`: merged args
`["--no-sandbox"]` with no override. -/
theorem ensureBrowser_rejects_dangerous_args_witness :
    ∃ e, ensureBrowser (some ["--no-sandbox"]) false false false = Except.error e ∧
      strIncludes e "Dangerous browser arguments detected" = true :=
  (ensureBrowser_rejects_dangerous_args ["--no-sandbox"] false "--no-sandbox"
    (List.mem_singleton.mpr rfl) ⟨"--no-sandbox", by decide, by decide⟩).1


/-- The `BrowserManager` handle state observed by `cleanup` and `isReady`:
whether each handle is non-null, whether the page reports closed, whether the
browser reports connected, the `isInitializing` flag and whether an idle
timer is scheduled. -/
structure BMState where
  browser : Bool
  browserConnected : Bool
  page : Bool
  pageClosed : Bool
  isInitializing : Bool
  idleTimeout : Bool
deriving DecidableEq

/-- `isReady` (BrowserManager.ts): browser and page present, page not closed,
not initializing. -/
def isReady (s : BMState) : Bool :=
  s.browser && s.page && !s.pageClosed && !s.isInitializing

/-- The `await this.page.close()` step of `cleanup`: runs only when a page is
present and not closed; `pageCloseFails` says whether the close call rejects,
in which case the exception carries the state unchanged (the page was not
closed). -/
def closePageStep (s : BMState) (pageCloseFails : Bool) : Except BMState BMState :=
  if s.page && !s.pageClosed then
    if pageCloseFails then Except.error s else Except.ok { s with pageClosed := true }
  else Except.ok s

/-- The `await this.browser.close()` step of `cleanup`: runs only when the
browser is present and connected; `browserCloseFails` says whether it
rejects. -/
def closeBrowserStep (s : BMState) (browserCloseFails : Bool) : Except BMState BMState :=
  if s.browser && s.browserConnected then
    if browserCloseFails then Except.error s
    else Except.ok { s with browserConnected := false }
  else Except.ok s

/-- The `try` block of `cleanup` (BrowserManager.ts): clear the idle timer,
close the page, close the browser, then null both handles and reset
`isInitializing`.  An exception aborts the block at the failing step,
carrying the state reached so far. -/
def cleanupTry (s : BMState) (pageCloseFails browserCloseFails : Bool) :
    Except BMState BMState :=
  match closePageStep { s with idleTimeout := false } pageCloseFails with
  | Except.error s1 => Except.error s1
  | Except.ok s1 =>
    match closeBrowserStep s1 browserCloseFails with
    | Except.error s2 => Except.error s2
    | Except.ok s2 =>
      Except.ok { s2 with page := false, browser := false, isInitializing := false }

/-- `cleanup` (BrowserManager.ts): the `catch` clause only logs, so the
resulting state is whatever the `try` block reached when it threw. -/
def cleanup (s : BMState) (pageCloseFails browserCloseFails : Bool) : BMState :=
  match cleanupTry s pageCloseFails browserCloseFails with
  | Except.ok s' => s'
  | Except.error s' => s'

/-- C8 counterexample: from a ready state with a scheduled idle timer, a
`cleanup` whose `page.close()` rejects leaves the page and browser handles
set and `isReady` still true — the handle-nulling statements sit after the
close calls inside the `try` block, so the claim that the handles are null
after every `cleanup`, including failing closes, is false on the code. -/
theorem cleanup_failed_close_counterexample :
    (cleanup ⟨true, true, true, false, false, true⟩ true false).page = true ∧
    (cleanup ⟨true, true, true, false, false, true⟩ true false).browser = true ∧
    isReady (cleanup ⟨true, true, true, false, false, true⟩ true false) = true :=
  ⟨rfl, rfl, rfl⟩

/-- C8 (amended): `cleanup` never raises (its `catch` swallows teardown
errors) and always cancels the idle timer; when neither close call fails it
nulls both handles and makes `isReady` false.  When a close call fails, the
handles are left as they were (see the counterexample). -/
theorem cleanup_cancels_timer_and_nulls_on_success :
    (∀ (s : BMState) (pf bf : Bool), (cleanup s pf bf).idleTimeout = false) ∧
    (∀ s : BMState, (cleanup s false false).page = false ∧
      (cleanup s false false).browser = false ∧
      isReady (cleanup s false false) = false) := by
  constructor
  · intro s pf bf
    obtain ⟨b, bc, p, pc, ii, it⟩ := s
    cases pf <;> cases bf <;> cases b <;> cases bc <;> cases p <;> cases pc <;> rfl
  · intro s
    obtain ⟨b, bc, p, pc, ii, it⟩ := s
    cases b <;> cases bc <;> cases p <;> cases pc <;>
      exact ⟨rfl, rfl, rfl⟩

/-- On-disk session payload (`StoredSession`, session-manager.ts): cookies,
a localStorage snapshot and the save timestamp in milliseconds. -/
structure StoredSession where
  cookies : List String
  localStorage : List (String × String)
  timestamp : ℤ
deriving DecidableEq

/-- `CONFIG.SESSION_EXPIRY_HOURS` (config.ts). -/
def SESSION_EXPIRY_HOURS : ℤ := 24

/-- The page state touched by `restoreSessionCookies`: cookies applied via
`setCookie` and localStorage snapshots registered via
`evaluateOnNewDocument`. -/
structure PageModel where
  cookies : List String
  newDocumentStorage : List (List (String × String))
deriving DecidableEq

/-- `restoreSessionCookies` (session-manager.ts).  The session directory is an
association list from session id to stored payload; the result is the
returned boolean together with the directory and page after the call.
Missing file → `false` untouched; age beyond the expiry window → the file is
unlinked and `false` returned; otherwise cookies and non-empty localStorage
are reapplied and `true` returned. -/
def restoreSessionCookies (files : List (String × StoredSession)) (page : PageModel)
    (sessionId : String) (now : ℤ) :
    Bool × List (String × StoredSession) × PageModel :=
  match files.lookup sessionId with
  | none => (false, files, page)
  | some session =>
    if SESSION_EXPIRY_HOURS * 60 * 60 * 1000 < now - session.timestamp then
      (false, files.filter (fun f => f.1 != sessionId), page)
    else
      let page1 := if 0 < session.cookies.length then
        { page with cookies := page.cookies ++ session.cookies } else page
      let page2 := if 0 < session.localStorage.length then
        { page1 with newDocumentStorage := page1.newDocumentStorage ++ [session.localStorage] }
        else page1
      (true, files, page2)

/-- Unlinking a session id removes it from every later lookup. -/
theorem lookup_filter_ne_none (id : String) :
    ∀ files : List (String × StoredSession),
      (files.filter (fun f => f.1 != id)).lookup id = none := by
  intro files
  induction files with
  | nil => rfl
  | cons f t ih =>
    by_cases h : f.1 = id
    · simpa [List.filter_cons, h] using ih
    · have hb : (f.1 != id) = true := bne_iff_ne.mpr h
      have hik : (id == f.1) = false := beq_eq_false_iff_ne.mpr (Ne.symm h)
      simp [List.filter_cons, hb, List.lookup, hik, ih]

/-- C5: a stored session whose age exceeds the expiry window is not restored —
`restoreSessionCookies` returns `false`, leaves the page untouched and
deletes the session file, after which every further read of that id fails —
and the page is modified only when a session within the expiry window was
found. -/
theorem restoreSessionCookies_expiry :
    (∀ (files : List (String × StoredSession)) (page : PageModel) (id : String)
        (now : ℤ) (sess : StoredSession),
        files.lookup id = some sess →
        SESSION_EXPIRY_HOURS * 60 * 60 * 1000 < now - sess.timestamp →
        (restoreSessionCookies files page id now).1 = false ∧
        (restoreSessionCookies files page id now).2.2 = page ∧
        ((restoreSessionCookies files page id now).2.1.lookup id = none) ∧
        (∀ (page' : PageModel) (now' : ℤ),
          (restoreSessionCookies (restoreSessionCookies files page id now).2.1
            page' id now').1 = false)) ∧
    (∀ (files : List (String × StoredSession)) (page : PageModel) (id : String) (now : ℤ),
        (restoreSessionCookies files page id now).2.2 ≠ page →
        ∃ sess, files.lookup id = some sess ∧
          now - sess.timestamp ≤ SESSION_EXPIRY_HOURS * 60 * 60 * 1000) := by
  constructor
  · intro files page id now sess hfound hexp
    have hres : restoreSessionCookies files page id now
        = (false, files.filter (fun f => f.1 != id), page) := by
      simp [restoreSessionCookies, hfound, hexp]
    refine ⟨by rw [hres], by rw [hres], ?_, ?_⟩
    · rw [hres]
      exact lookup_filter_ne_none id files
    · intro page' now'
      rw [hres]
      simp [restoreSessionCookies, lookup_filter_ne_none id files]
  · intro files page id now hne
    cases hl : files.lookup id with
    | none => simp [restoreSessionCookies, hl] at hne
    | some sess =>
      by_cases hexp : SESSION_EXPIRY_HOURS * 60 * 60 * 1000 < now - sess.timestamp
      · simp [restoreSessionCookies, hl, hexp] at hne
      · exact ⟨sess, rfl, not_lt.mp hexp⟩

/-- Closed witness for `restoreSessionCookies_expiry`: one session saved at
timestamp 0 and read 24 hours + 1 ms later is expired, deleted and the page
untouched. -/
theorem restoreSessionCookies_expiry_witness :
    (restoreSessionCookies [("sid", ⟨["c1"], [], 0⟩)] ⟨[], []⟩ "sid" 86400001).1 = false ∧
    (restoreSessionCookies [("sid", ⟨["c1"], [], 0⟩)] ⟨[], []⟩ "sid" 86400001).2.2 = ⟨[], []⟩ ∧
    ((restoreSessionCookies [("sid", ⟨["c1"], [], 0⟩)] ⟨[], []⟩ "sid" 86400001).2.1.lookup
      "sid" = none) ∧
    (∀ (page' : PageModel) (now' : ℤ),
      (restoreSessionCookies
        (restoreSessionCookies [("sid", ⟨["c1"], [], 0⟩)] ⟨[], []⟩ "sid" 86400001).2.1
        page' "sid" now').1 = false) :=
  restoreSessionCookies_expiry.1 [("sid", ⟨["c1"], [], 0⟩)] ⟨[], []⟩ "sid" 86400001
    ⟨["c1"], [], 0⟩ (by simp [List.lookup]) (by norm_num [SESSION_EXPIRY_HOURS])

/-- Chat message roles (`ChatMessage`, types/index.ts). -/
inductive ChatRole
  | user
  | assistant
deriving DecidableEq

/-- A chat message as stored in the history database. -/
structure ChatMessage where
  role : ChatRole
  content : String
deriving DecidableEq

/-- The per-message line of the conversation prompt built by `chatPerplexity`
(chatPerplexity.ts): `"User: "` or `"Assistant: "` prefix plus a newline. -/
def formatChatMessage (m : ChatMessage) : String :=
  match m.role with
  | ChatRole.user => "User: " ++ m.content ++ "\n"
  | ChatRole.assistant => "Assistant: " ++ m.content ++ "\n"

/-- The formatted history lines in stored order, each message exactly once. -/
def joinedHistory (msgs : List ChatMessage) : String :=
  match msgs with
  | [] => ""
  | m :: t => formatChatMessage m ++ joinedHistory t

/-- The observable effects of one `chatPerplexity` call, in execution order:
the history read, the message save, and the `performSearch` invocation with
its prompt. -/
inductive ChatEvent
  | getHistory (chatId : String)
  | save (chatId : String) (message : ChatMessage)
  | search (prompt : String)
deriving DecidableEq

/-- `chatPerplexity` (chatPerplexity.ts) as its trace of effects: the chat id
defaults to a fresh `crypto.randomUUID()` draw (`uuid`); the history is read
first, then the incoming user message is saved, then the conversation prompt
is accumulated by the source's `for` loop over the previously read history
and `performSearch` runs on it.  `history` is the chat-history store
(`getChatHistory`) at call time. -/
def chatPerplexity (message : String) (chat_id : Option String) (uuid : String)
    (history : String → List ChatMessage) : List ChatEvent :=
  let cid := chat_id.getD uuid
  let hist := history cid
  let userMessage : ChatMessage := ⟨ChatRole.user, message⟩
  let conversationPrompt :=
    hist.foldl (fun acc msg => acc ++ formatChatMessage msg) ""
      ++ ("User: " ++ message ++ "\n")
  [ChatEvent.getHistory cid, ChatEvent.save cid userMessage,
    ChatEvent.search conversationPrompt]

/-- The source's accumulating `for` loop equals the structural concatenation
of the formatted history. -/
theorem foldl_format_eq (msgs : List ChatMessage) :
    ∀ acc : String,
      msgs.foldl (fun a m => a ++ formatChatMessage m) acc = acc ++ joinedHistory msgs := by
  induction msgs with
  | nil =>
    intro acc
    simp [joinedHistory]
  | cons m t ih =>
    intro acc
    rw [List.foldl_cons, ih]
    simp only [joinedHistory]
    rw [String.append_assoc]

/-- C10: every `chatPerplexity` call reads the history, then saves the user
message, then searches — so the prompt handed to `performSearch` is each
previously stored message exactly once, prefixed and in stored order,
followed by the new user message exactly once, and the save happens before
the search; when `chat_id` is omitted the fresh `uuid` draw identifies the
conversation. -/
theorem chatPerplexity_reads_then_saves_then_searches :
    (∀ (message : String) (chat_id : Option String) (uuid : String)
        (history : String → List ChatMessage),
        chatPerplexity message chat_id uuid history
          = [ChatEvent.getHistory (chat_id.getD uuid),
             ChatEvent.save (chat_id.getD uuid) ⟨ChatRole.user, message⟩,
             ChatEvent.search (joinedHistory (history (chat_id.getD uuid))
               ++ ("User: " ++ message ++ "\n"))]) ∧
    (∀ (message uuid : String) (history : String → List ChatMessage),
        chatPerplexity message none uuid history
          = [ChatEvent.getHistory uuid,
             ChatEvent.save uuid ⟨ChatRole.user, message⟩,
             ChatEvent.search (joinedHistory (history uuid)
               ++ ("User: " ++ message ++ "\n"))]) := by
  have hmain : ∀ (message : String) (chat_id : Option String) (uuid : String)
      (history : String → List ChatMessage),
      chatPerplexity message chat_id uuid history
        = [ChatEvent.getHistory (chat_id.getD uuid),
           ChatEvent.save (chat_id.getD uuid) ⟨ChatRole.user, message⟩,
           ChatEvent.search (joinedHistory (history (chat_id.getD uuid))
             ++ ("User: " ++ message ++ "\n"))] := by
    intro message chat_id uuid history
    simp only [chatPerplexity, foldl_format_eq]
    rw [String.empty_append]
  exact ⟨hmain, fun message uuid history => hmain message none uuid history⟩
